import Mathlib

/-!
Verification of the build/validate/wire/execute core of the lava
dataflow-process framework, embedded shallowly in Lean 4.

The repository sources under verification are:
* `src/lava/magma/core/process/ports/reduce_ops.py` (ReduceOp marker classes),
* `src/tests/magma/core/model/test_py_model.py` (PyProcessBuilder behavior),
* `src/tests/magma/runtime/test_runtime.py` (Runtime.initialize behavior).

The implementation modules (`lava.magma.compiler.builder`,
`lava.magma.runtime.runtime`, `lava.magma.core.model.py.*`) are not part of
the source tree, only their tests are; the definitions below therefore model
those operations from the specification, kept consistent with the behavior
pinned by the tests.
-/

deriving instance DecidableEq for Except

namespace Lava

/-! ## Error model -/

/-- Modelled from the spec: the error taxonomy of section 7, plus the
build-time broadcast failure ("shapes that are neither equal nor
broadcast-compatible are a build-time error"). -/
inductive ErrKind where
  | unknownAttribute
  | incompleteBinding
  | invalidTypeDescriptor
  | typeMismatch
  | invalidDeploymentPlan
  | broadcastIncompatible
  deriving DecidableEq

/-- The Python exception class through which an error reaches the caller. -/
inductive ExcClass where
  | assertionError
  | valueError
  deriving DecidableEq

/-- A configuration error: its kind in the spec taxonomy and the host
exception class that surfaces it. -/
structure ConfigError where
  kind : ErrKind
  excClass : ExcClass
  deriving DecidableEq

/-- Modelled from the spec: the missing implementation raises every
configuration error of the taxonomy through a Python `assert` statement
(the tests observe each of them with `assertRaises(AssertionError)`). -/
def assertFail (k : ErrKind) : ConfigError :=
  ConfigError.mk k ExcClass.assertionError

/-! ## Python type tags

Modelled from the spec and the test fixtures: the values that appear as the
primary type tag (`cls`) of a `LavaPyType` — the port class hierarchy
`PyInPort`/`PyOutPort` with their dense/sparse vector subclasses, the scalar
classes `int`/`float`, `np.ndarray`, and non-type literals such as `123`. -/

inductive PyTypeTag where
  | intLit (n : Int)
  | pyInt
  | pyFloat
  | pyNdarray
  | pyInPort
  | pyInPortVectorDense
  | pyInPortVectorSparse
  | pyOutPort
  | pyOutPortVectorDense
  | pyOutPortVectorSparse
  deriving DecidableEq

/-- `isinstance(tag, type)`: every tag except a bare literal is a type. -/
def isType : PyTypeTag → Bool
  | PyTypeTag.intLit _ => false
  | _ => true

/-- `issubclass` on the modelled hierarchy: reflexive on types, plus the
edges from the concrete port implementations to their direction base. -/
def isSubclassOf (a b : PyTypeTag) : Bool :=
  decide (a = b) ||
    (match a, b with
     | PyTypeTag.pyInPortVectorDense, PyTypeTag.pyInPort => true
     | PyTypeTag.pyInPortVectorSparse, PyTypeTag.pyInPort => true
     | PyTypeTag.pyOutPortVectorDense, PyTypeTag.pyOutPort => true
     | PyTypeTag.pyOutPortVectorSparse, PyTypeTag.pyOutPort => true
     | _, _ => false)

/-- Strict subclass: a subclass that is not the class itself. -/
def isStrictSubclassOf (a b : PyTypeTag) : Bool :=
  isSubclassOf a b && !(decide (a = b))

/-- Direction of a declared process `Port` (the `port_type` string of a
`PortInitializer`: `"InPort"` or `"OutPort"`). -/
inductive PortCls where
  | inPort
  | outPort
  deriving DecidableEq

/-- The direction-specific base port type a declared attribute must match. -/
def portBaseFor : PortCls → PyTypeTag
  | PortCls.inPort => PyTypeTag.pyInPort
  | PortCls.outPort => PyTypeTag.pyOutPort

/-! ## Tensors and numpy broadcasting

Var values are numpy arrays; we model them as a shape together with the
row-major flat data.  Broadcasting follows numpy: shapes are aligned on
trailing dimensions, a source dimension must equal the target dimension or
be 1, and missing leading dimensions are replicated. -/

structure Tensor where
  shape : List Nat
  data : List Int
  deriving DecidableEq

/-- Number of elements of a shape (product of the dimensions). -/
def prodL (l : List Nat) : Nat := l.foldr (fun a b => a * b) 1

/-- Trailing-aligned numpy compatibility check, on reversed shapes. -/
def compatRev : List Nat → List Nat → Bool
  | [], _ => true
  | _ :: _, [] => false
  | t :: ts, s :: ss => (decide (t = s) || decide (t = 1)) && compatRev ts ss

/-- numpy broadcast compatibility of source shape `T` with target shape `S`. -/
def broadcastCompatible (T S : List Nat) : Bool :=
  compatRev T.reverse S.reverse

/-- Row-major flat index into the source array corresponding to flat index
`k` of the target array; both shapes are passed reversed (trailing dimension
first).  A source dimension of size 1 is replicated (its coordinate is
clamped to 0), missing leading source dimensions are dropped. -/
def srcIndexRev : List Nat → List Nat → Nat → Nat
  | [], _, _ => 0
  | _ :: _, [], _ => 0
  | t :: ts, s :: ss, k =>
      (if t = 1 then 0 else k % s) + t * srcIndexRev ts ss (k / s)

/-- `np.broadcast_to` (as used by the builder's `var[:] = v.value`
assignment): replicate the source tensor to exactly the target shape, or
fail when the shapes are not broadcast-compatible. -/
def Tensor.broadcastTo (t : Tensor) (S : List Nat) : Option Tensor :=
  if broadcastCompatible t.shape S then
    Option.some
      (Tensor.mk S
        ((List.range (prodL S)).map
          (fun k => t.data.getD (srcIndexRev t.shape.reverse S.reverse k) 0)))
  else Option.none

/-- A scalar value as a rank-0 tensor. -/
def scalarT (x : Int) : Tensor := Tensor.mk [] [x]

/-! ## TypeDescriptors and initializers -/

/-- Modelled from the spec: a `LavaPyType` — one TypeDescriptor per declared
attribute of a process-model type: primary type tag, element type, default
precision (optional, `None` when omitted). -/
structure LavaPyType where
  cls : PyTypeTag
  d_type : PyTypeTag
  precision : Option Int
  deriving DecidableEq

/-- A `VarInitializer` as produced by the compiler from a process `Var`:
name, declared shape, initial value and identity. -/
structure VarInitializer where
  name : String
  shape : List Nat
  init : Tensor
  var_id : Nat
  deriving DecidableEq

/-- A `PortInitializer` as produced by the compiler from a process port:
name, declared shape, element type, port class name and endpoint size. -/
structure PortInitializer where
  name : String
  shape : List Nat
  d_type : PyTypeTag
  port_type : PortCls
  size : Nat
  deriving DecidableEq

/-- A ChannelEndpoint (`AbstractCspPort`), identified by its name. -/
structure CspPort where
  name : String
  deriving DecidableEq

/-! ## The PyProcessBuilder -/

/-- Modelled from the spec: the `PyProcessBuilder` holds the process-model
type (its name-to-`LavaPyType` schema) plus the name-keyed mappings of
stored `VarInitializer`s, `PortInitializer`s and `CspPort`s. -/
structure PyProcessBuilder where
  proc_model : List (String × LavaPyType)
  vars : List (String × VarInitializer)
  py_ports : List (String × PortInitializer)
  csp_ports : List (String × CspPort)
  deriving DecidableEq

/-- Store by key with dictionary semantics: last write wins, insertion
order otherwise preserved. -/
def upsert (l : List (String × α)) (k : String) (v : α) : List (String × α) :=
  if l.any (fun p => decide (p.1 = k)) then
    l.map (fun p => if p.1 = k then (k, v) else p)
  else l ++ [(k, v)]

/-- Modelled from the spec: `set_variables` — for each initializer a
`LavaPyType` with the same name must exist on the process-model type,
otherwise the call fails with `UnknownAttribute`; on success all
initializers are stored by name. -/
def set_variables (b : PyProcessBuilder) (l : List VarInitializer) :
    Except ConfigError PyProcessBuilder :=
  if l.all (fun v => (b.proc_model.lookup v.name).isSome) then
    Except.ok
      (PyProcessBuilder.mk b.proc_model
        (l.foldl (fun acc v => upsert acc v.name v) b.vars)
        b.py_ports b.csp_ports)
  else Except.error (assertFail ErrKind.unknownAttribute)

/-- Modelled from the spec: `set_py_ports` — same contract as
`set_variables`, for `PortInitializer`s. -/
def set_py_ports (b : PyProcessBuilder) (l : List PortInitializer) :
    Except ConfigError PyProcessBuilder :=
  if l.all (fun p => (b.proc_model.lookup p.name).isSome) then
    Except.ok
      (PyProcessBuilder.mk b.proc_model b.vars
        (l.foldl (fun acc p => upsert acc p.name p) b.py_ports)
        b.csp_ports)
  else Except.error (assertFail ErrKind.unknownAttribute)

/-- Modelled from the spec: `set_csp_ports` — stores by name with no
existence check (endpoints may be a subset of the ports: dangling ports). -/
def set_csp_ports (b : PyProcessBuilder) (l : List CspPort) :
    PyProcessBuilder :=
  PyProcessBuilder.mk b.proc_model b.vars b.py_ports
    (l.foldl (fun acc c => upsert acc c.name c) b.csp_ports)

/-- Modelled from the spec: `check_all_vars_and_ports_set` — fails with
`IncompleteBinding` if any `LavaPyType` name lacks a stored Var- or
PortInitializer. -/
def check_all_vars_and_ports_set (b : PyProcessBuilder) :
    Except ConfigError Unit :=
  if b.proc_model.all
      (fun p => (b.vars.lookup p.1).isSome || (b.py_ports.lookup p.1).isSome)
  then Except.ok ()
  else Except.error (assertFail ErrKind.incompleteBinding)

/-- Type-compatibility check of a single port TypeDescriptor against the
declared direction: the primary tag must be an actual type
(`InvalidTypeDescriptor` otherwise) and a strict subclass of the
direction-specific base port class (`TypeMismatch` otherwise).  Strictness
is pinned by the test `test_check_lava_py_types`: `LavaPyType(PyInPort,
int)` for a declared InPort is rejected. -/
def checkPortType (lt : LavaPyType) (pc : PortCls) : Except ConfigError Unit :=
  if isType lt.cls = false then
    Except.error (assertFail ErrKind.invalidTypeDescriptor)
  else if isStrictSubclassOf lt.cls (portBaseFor pc) then Except.ok ()
  else Except.error (assertFail ErrKind.typeMismatch)

/-- Iterate `checkPortType` over the stored `PortInitializer`s. -/
def checkPortsList (pm : List (String × LavaPyType)) :
    List (String × PortInitializer) → Except ConfigError Unit
  | [] => Except.ok ()
  | (name, pi) :: rest =>
    match pm.lookup name with
    | Option.none => Except.error (assertFail ErrKind.unknownAttribute)
    | Option.some lt =>
      match checkPortType lt pi.port_type with
      | Except.ok _ => checkPortsList pm rest
      | Except.error e => Except.error e

/-- Modelled from the spec: `check_lava_py_types` — checks every stored
port's TypeDescriptor. -/
def check_lava_py_types (b : PyProcessBuilder) : Except ConfigError Unit :=
  checkPortsList b.proc_model b.py_ports

/-! ## build() -/

/-- An attribute of the built process-model instance: a Var's value, a
companion precision value, or a live port (its class, shape, and the bound
channel endpoint if any). -/
inductive AttrVal where
  | val (t : Tensor)
  | prec (p : Option Int)
  | port (cls : PyTypeTag) (shape : List Nat) (csp : Option CspPort)
  deriving DecidableEq

/-- Naming convention of the companion precision attribute of a Var. -/
def precName (name : String) : String := "_" ++ name ++ "_p"

/-- Modelled from the spec: the Var part of `build()` — for each stored
`VarInitializer`, the live attribute receives the initial value (broadcast
to the declared shape for array-typed Vars, assigned directly for
scalar-typed Vars), and the companion precision attribute receives the
TypeDescriptor's default precision. -/
def build_var_attrs (pm : List (String × LavaPyType)) :
    List (String × VarInitializer) →
    Except ConfigError (List (String × AttrVal))
  | [] => Except.ok []
  | (name, v) :: rest =>
    match pm.lookup name with
    | Option.none => Except.error (assertFail ErrKind.unknownAttribute)
    | Option.some lt =>
      match build_var_attrs pm rest with
      | Except.error e => Except.error e
      | Except.ok attrs =>
        if lt.cls = PyTypeTag.pyNdarray then
          match Tensor.broadcastTo v.init v.shape with
          | Option.none =>
            Except.error
              (ConfigError.mk ErrKind.broadcastIncompatible
                ExcClass.valueError)
          | Option.some w =>
            Except.ok
              ((name, AttrVal.val w) ::
                (precName name, AttrVal.prec lt.precision) :: attrs)
        else
          Except.ok
            ((name, AttrVal.val v.init) ::
              (precName name, AttrVal.prec lt.precision) :: attrs)

/-- Modelled from the spec: the port part of `build()` — each stored
`PortInitializer` yields a live port of the TypeDescriptor's class with the
declared shape, bound to the stored channel endpoint of the same name if
present, else left dangling (`none`, never an error). -/
def build_port_attrs (pm : List (String × LavaPyType))
    (csp : List (String × CspPort)) :
    List (String × PortInitializer) →
    Except ConfigError (List (String × AttrVal))
  | [] => Except.ok []
  | (name, pi) :: rest =>
    match pm.lookup name with
    | Option.none => Except.error (assertFail ErrKind.unknownAttribute)
    | Option.some lt =>
      match build_port_attrs pm csp rest with
      | Except.error e => Except.error e
      | Except.ok attrs =>
        Except.ok
          ((name, AttrVal.port lt.cls pi.shape (csp.lookup name)) :: attrs)

/-- Modelled from the spec: `build()` — returns the attribute map of the
live process-model instance. -/
def PyProcessBuilder.build (b : PyProcessBuilder) :
    Except ConfigError (List (String × AttrVal)) :=
  match build_var_attrs b.proc_model b.vars,
        build_port_attrs b.proc_model b.csp_ports b.py_ports with
  | Except.ok va, Except.ok pa => Except.ok (va ++ pa)
  | Except.error e, _ => Except.error e
  | _, Except.error e => Except.error e

/-! ## Node / NodeConfig / Executable / Runtime -/

/-- A deployment `Node`: a resource-kind tag plus the process models
assigned to it. -/
structure Node where
  node_type : String
  processes : List String
  deriving DecidableEq

/-- A `NodeConfig`: an ordered sequence of Nodes forming one deployment
plan. -/
structure NodeConfig where
  nodes : List Node
  deriving DecidableEq

/-- An `Executable`: the ordered sequence of NodeConfig candidates. -/
structure Executable where
  node_configs : List NodeConfig
  deriving DecidableEq

/-- Runtime lifecycle state (`Created`, `Initialized`, `Running`,
`Stopped`). -/
inductive RtState where
  | created
  | inited
  | running
  | stopped
  deriving DecidableEq

/-- The `Runtime`: one Executable, one run condition (a `RunSteps` step
count), and its lifecycle state. -/
structure Runtime where
  exe : Executable
  num_steps : Nat
  state : RtState
  deriving DecidableEq

/-- Modelled from the spec: `Runtime.initialize()` — requires the
Executable to hold exactly one NodeConfig and that NodeConfig to hold
exactly one Node, failing `InvalidDeploymentPlan` (an assertion failure)
otherwise; on success the Runtime transitions to `Initialized`. -/
def Runtime.init (r : Runtime) : Except ConfigError Runtime :=
  match r.exe.node_configs with
  | [nc] =>
    match nc.nodes with
    | [_] => Except.ok (Runtime.mk r.exe r.num_steps RtState.inited)
    | _ => Except.error (assertFail ErrKind.invalidDeploymentPlan)
  | _ => Except.error (assertFail ErrKind.invalidDeploymentPlan)

/-! ## ReduceOp

`src/lava/magma/core/process/ports/reduce_ops.py` declares the marker
classes `AbstractReduceOp` and `ReduceSum`; the combination semantics is
modelled from the spec. -/

/-- The reduce operations declared in `reduce_ops.py` (`ReduceSum` is the
only concrete one). -/
inductive ReduceOp where
  | sum
  deriving DecidableEq

/-- Element-wise addition of two delivered messages (flat row-major data of
the input port's shape). -/
def zipAdd (a b : List Int) : List Int := List.zipWith (fun x y => x + y) a b

/-- Modelled from the spec: the combination strategy attached to a
`ReduceOp` — `ReduceSum` combines delivered messages by element-wise
addition. -/
def combineOf : ReduceOp → List Int → List Int → List Int
  | ReduceOp.sum => zipAdd

/-- Modelled from the spec: combination of all messages delivered to one
input port during one logical step (`none` when nothing was delivered). -/
def reduceSumMsgs (msgs : List (List Int)) : Option (List Int) :=
  msgs.foldr
    (fun m acc =>
      match acc with
      | Option.none => Option.some m
      | Option.some a => Option.some (combineOf ReduceOp.sum m a))
    Option.none

/-! ## Concrete fixtures from the tests

These mirror the fixtures of `test_py_model.py` and `test_runtime.py`:
the process model `ProcModel` with its six `LavaPyType`s, the process
`Proc` with its Vars and Ports, the four `ProcModelForLavaPyType*`
models, and the executables of `test_executable_node_config_assertion`. -/

/-- The `LavaPyType` schema of `ProcModel`. -/
def ProcModelTypes : List (String × LavaPyType) :=
  [("in_port",
     LavaPyType.mk PyTypeTag.pyInPortVectorDense PyTypeTag.pyInt
       (Option.some 8)),
   ("v1_scalar",
     LavaPyType.mk PyTypeTag.pyInt PyTypeTag.pyInt (Option.some 27)),
   ("v2_scalar_init",
     LavaPyType.mk PyTypeTag.pyInt PyTypeTag.pyInt (Option.some 27)),
   ("v3_tensor_broadcast",
     LavaPyType.mk PyTypeTag.pyNdarray PyTypeTag.pyInt (Option.some 6)),
   ("v4_tensor",
     LavaPyType.mk PyTypeTag.pyNdarray PyTypeTag.pyInt (Option.some 6)),
   ("out_port",
     LavaPyType.mk PyTypeTag.pyOutPortVectorDense PyTypeTag.pyInt
       (Option.some 8))]

/-- `VarInitializer`s of the four Vars of `Proc`. -/
def vi1 : VarInitializer := VarInitializer.mk "v1_scalar" [1] (scalarT 0) 0

def vi2 : VarInitializer :=
  VarInitializer.mk "v2_scalar_init" [1] (scalarT 2) 1

def vi3 : VarInitializer :=
  VarInitializer.mk "v3_tensor_broadcast" [2, 3] (scalarT 10) 2

def vi4 : VarInitializer :=
  VarInitializer.mk "v4_tensor" [3, 2] (Tensor.mk [3, 2] [1, 2, 3, 4, 5, 6]) 3

def procVarInits : List VarInitializer := [vi1, vi2, vi3, vi4]

/-- `PortInitializer`s of the two ports of `Proc`. -/
def piIn : PortInitializer :=
  PortInitializer.mk "in_port" [2, 1] PyTypeTag.pyInt PortCls.inPort 32

def piOut : PortInitializer :=
  PortInitializer.mk "out_port" [3, 2] PyTypeTag.pyInt PortCls.outPort 32

/-- The fake channel endpoints of the tests. -/
def cspIn : CspPort := CspPort.mk "in_port"

def cspOut : CspPort := CspPort.mk "out_port"

/-- A fresh builder for `ProcModel` (nothing stored yet). -/
def bEmptyB : PyProcessBuilder := PyProcessBuilder.mk ProcModelTypes [] [] []

/-- The stored var mapping after `set_variables` with all four Vars. -/
def fullVars : List (String × VarInitializer) :=
  [("v1_scalar", vi1), ("v2_scalar_init", vi2),
   ("v3_tensor_broadcast", vi3), ("v4_tensor", vi4)]

def fullPorts : List (String × PortInitializer) :=
  [("in_port", piIn), ("out_port", piOut)]

/-- Builder with every Var, Port and endpoint stored (`test_build`). -/
def bFull : PyProcessBuilder :=
  PyProcessBuilder.mk ProcModelTypes fullVars fullPorts
    [("in_port", cspIn), ("out_port", cspOut)]

/-- Builder missing the last Var and the last Port
(`test_check_all_vars_and_ports_set`, first half). -/
def bMissing : PyProcessBuilder :=
  PyProcessBuilder.mk ProcModelTypes
    [("v1_scalar", vi1), ("v2_scalar_init", vi2),
     ("v3_tensor_broadcast", vi3)]
    [("in_port", piIn)] []

/-- Builder with endpoints only for the input port
(`test_build_with_dangling_ports`, first half). -/
def bNoOut : PyProcessBuilder :=
  PyProcessBuilder.mk ProcModelTypes fullVars fullPorts [("in_port", cspIn)]

/-- Builder with endpoints only for the output port
(`test_build_with_dangling_ports`, second half). -/
def bNoIn : PyProcessBuilder :=
  PyProcessBuilder.mk ProcModelTypes fullVars fullPorts [("out_port", cspOut)]

/-- The extra initializer of `test_setting_non_existing_var`. -/
def anotherVarInit : VarInitializer :=
  VarInitializer.mk "AnotherVar" [1, 2, 3] (scalarT 100) 0

/-- `PortInitializer` of the single InPort of `ProcForLavaPyType`. -/
def piPort : PortInitializer :=
  PortInitializer.mk "port" [1] PyTypeTag.pyInt PortCls.inPort 32

/-- Builder for `ProcModelForLavaPyType0`
(`LavaPyType(PyInPort.VEC_DENSE, int)`). -/
def bType0 : PyProcessBuilder :=
  PyProcessBuilder.mk
    [("port",
       LavaPyType.mk PyTypeTag.pyInPortVectorDense PyTypeTag.pyInt
         Option.none)]
    [] [("port", piPort)] []

/-- Builder for `ProcModelForLavaPyType1` (`LavaPyType(123, int)`). -/
def bType1 : PyProcessBuilder :=
  PyProcessBuilder.mk
    [("port", LavaPyType.mk (PyTypeTag.intLit 123) PyTypeTag.pyInt
       Option.none)]
    [] [("port", piPort)] []

/-- Builder for `ProcModelForLavaPyType2` (`LavaPyType(PyInPort, int)`). -/
def bType2 : PyProcessBuilder :=
  PyProcessBuilder.mk
    [("port", LavaPyType.mk PyTypeTag.pyInPort PyTypeTag.pyInt Option.none)]
    [] [("port", piPort)] []

/-- Builder for `ProcModelForLavaPyType3` (`LavaPyType(PyOutPort, int)`). -/
def bType3 : PyProcessBuilder :=
  PyProcessBuilder.mk
    [("port", LavaPyType.mk PyTypeTag.pyOutPort PyTypeTag.pyInt Option.none)]
    [] [("port", piPort)] []

/-- `Node(HeadNode, [])` of `test_executable_node_config_assertion`. -/
def headNode : Node := Node.mk "HeadNode" []

/-- The empty executable (`runtime1`). -/
def rt1 : Runtime := Runtime.mk (Executable.mk []) 10 RtState.created

/-- One NodeConfig with one Node (`runtime2`). -/
def rt2 : Runtime :=
  Runtime.mk (Executable.mk [NodeConfig.mk [headNode]]) 10 RtState.created

/-- After appending a second Node to the NodeConfig (`runtime3`). -/
def rt3 : Runtime :=
  Runtime.mk (Executable.mk [NodeConfig.mk [headNode, headNode]]) 10
    RtState.created

/-- After also appending a second NodeConfig (`runtime4`). -/
def rt4 : Runtime :=
  Runtime.mk
    (Executable.mk
      [NodeConfig.mk [headNode, headNode], NodeConfig.mk [headNode]])
    10 RtState.created

/-! ## Helper lemmas -/

/-- Name sets. -/
def declaredNames (b : PyProcessBuilder) : List String :=
  b.proc_model.map Prod.fst

def storedNames (b : PyProcessBuilder) : List String :=
  b.vars.map Prod.fst ++ b.py_ports.map Prod.fst

def subsetB (l1 l2 : List String) : Bool :=
  l1.all (fun n => decide (n ∈ l2))

def sameSetB (l1 l2 : List String) : Bool := subsetB l1 l2 && subsetB l2 l1

theorem subsetB_iff (l1 l2 : List String) :
    subsetB l1 l2 = true ↔ ∀ n ∈ l1, n ∈ l2 := by
  simp [subsetB]

theorem lookup_cons_self (t : List (String × α)) (k : String) (x : α) :
    ((k, x) :: t).lookup k = Option.some x := by
  simp [List.lookup]

theorem lookup_cons_ne (t : List (String × α)) (k n : String) (x : α)
    (h : k ≠ n) : ((k, x) :: t).lookup n = t.lookup n := by
  have h2 : (n == k) = false := beq_eq_false_iff_ne.mpr (Ne.symm h)
  simp [List.lookup, h2]

theorem lookup_isSome_iff (l : List (String × α)) (n : String) :
    (l.lookup n).isSome = true ↔ n ∈ l.map Prod.fst := by
  induction l with
  | nil => simp [List.lookup]
  | cons p t ih =>
    obtain ⟨k, v⟩ := p
    by_cases h : k = n
    · subst h
      simp [lookup_cons_self]
    · rw [lookup_cons_ne t k n v h]
      simp [ih, h]
      intro hn
      exact absurd hn.symm h

/-- A successful broadcast has exactly the target shape (and the matching
number of elements). -/
theorem broadcastTo_shape (t : Tensor) (S : List Nat) (w : Tensor)
    (h : Tensor.broadcastTo t S = Option.some w) :
    w.shape = S ∧ w.data.length = prodL S := by
  unfold Tensor.broadcastTo at h
  split at h
  · injection h with h
    subst h
    constructor
    · rfl
    · simp
  · exact absurd h (by simp)

/-- `set_variables` succeeds exactly when every initializer's name has a
TypeDescriptor on the process-model type. -/
theorem set_variables_ok_iff (b : PyProcessBuilder) (l : List VarInitializer) :
    (∃ b2, set_variables b l = Except.ok b2) ↔
      ∀ v ∈ l, (b.proc_model.lookup v.name).isSome = true := by
  unfold set_variables
  split
  · rename_i hcond
    simp only [List.all_eq_true] at hcond
    exact ⟨fun _ => hcond, fun _ => ⟨_, rfl⟩⟩
  · rename_i hcond
    constructor
    · intro hex
      obtain ⟨b2, hb⟩ := hex
      exact absurd hb (by simp)
    · intro hall
      exact absurd (List.all_eq_true.mpr hall) hcond

/-- On failure `set_variables` reports `UnknownAttribute` through an
assertion. -/
theorem set_variables_err (b : PyProcessBuilder) (l : List VarInitializer)
    (h : ∃ v, v ∈ l ∧ b.proc_model.lookup v.name = Option.none) :
    set_variables b l = Except.error (assertFail ErrKind.unknownAttribute) := by
  obtain ⟨v, hv, hnone⟩ := h
  unfold set_variables
  split
  · rename_i hcond
    simp only [List.all_eq_true] at hcond
    have := hcond v hv
    rw [hnone] at this
    exact absurd this (by simp)
  · rfl

/-- `set_py_ports` succeeds exactly when every initializer's name has a
TypeDescriptor on the process-model type. -/
theorem set_py_ports_ok_iff (b : PyProcessBuilder)
    (l : List PortInitializer) :
    (∃ b2, set_py_ports b l = Except.ok b2) ↔
      ∀ p ∈ l, (b.proc_model.lookup p.name).isSome = true := by
  unfold set_py_ports
  split
  · rename_i hcond
    simp only [List.all_eq_true] at hcond
    exact ⟨fun _ => hcond, fun _ => ⟨_, rfl⟩⟩
  · rename_i hcond
    constructor
    · intro hex
      obtain ⟨b2, hb⟩ := hex
      exact absurd hb (by simp)
    · intro hall
      exact absurd (List.all_eq_true.mpr hall) hcond

/-- On failure `set_py_ports` reports `UnknownAttribute` through an
assertion. -/
theorem set_py_ports_err (b : PyProcessBuilder) (l : List PortInitializer)
    (h : ∃ p, p ∈ l ∧ b.proc_model.lookup p.name = Option.none) :
    set_py_ports b l = Except.error (assertFail ErrKind.unknownAttribute) := by
  obtain ⟨p, hp, hnone⟩ := h
  unfold set_py_ports
  split
  · rename_i hcond
    simp only [List.all_eq_true] at hcond
    have := hcond p hp
    rw [hnone] at this
    exact absurd this (by simp)
  · rfl

/-- `check_all_vars_and_ports_set` passes exactly when every declared name
has a stored initializer. -/
theorem check_all_ok_iff (b : PyProcessBuilder) :
    check_all_vars_and_ports_set b = Except.ok () ↔
      ∀ n ∈ declaredNames b, n ∈ storedNames b := by
  unfold check_all_vars_and_ports_set
  split
  · rename_i hcond
    simp only [List.all_eq_true] at hcond
    constructor
    · intro _ n hn
      obtain ⟨p, hp, hpn⟩ := List.mem_map.mp hn
      have h2 := hcond p hp
      rw [hpn] at h2
      rcases Bool.or_eq_true_iff.mp h2 with h3 | h3
      · exact List.mem_append_left _ ((lookup_isSome_iff b.vars n).mp h3)
      · exact List.mem_append_right _ ((lookup_isSome_iff b.py_ports n).mp h3)
    · intro _
      rfl
  · rename_i hcond
    constructor
    · intro hok
      exact absurd hok (by simp)
    · intro hall
      apply absurd _ hcond
      apply List.all_eq_true.mpr
      intro p hp
      have hn : p.1 ∈ declaredNames b := List.mem_map_of_mem Prod.fst hp
      rcases List.mem_append.mp (hall p.1 hn) with h3 | h3
      · exact Bool.or_eq_true_iff.mpr
          (Or.inl ((lookup_isSome_iff b.vars p.1).mpr h3))
      · exact Bool.or_eq_true_iff.mpr
          (Or.inr ((lookup_isSome_iff b.py_ports p.1).mpr h3))

/-- On failure `check_all_vars_and_ports_set` reports `IncompleteBinding`
through an assertion. -/
theorem check_all_err (b : PyProcessBuilder)
    (h : ¬ check_all_vars_and_ports_set b = Except.ok ()) :
    check_all_vars_and_ports_set b =
      Except.error (assertFail ErrKind.incompleteBinding) := by
  by_cases hc : (b.proc_model.all
      (fun p =>
        (b.vars.lookup p.1).isSome || (b.py_ports.lookup p.1).isSome)) = true
  · refine absurd ?_ h
    unfold check_all_vars_and_ports_set
    rw [if_pos hc]
  · unfold check_all_vars_and_ports_set
    rw [if_neg hc]

/-- `checkPortType` accepts exactly the actual types that are strict
subclasses of the direction-specific base port class. -/
theorem checkPortType_ok_iff (lt : LavaPyType) (pc : PortCls) :
    checkPortType lt pc = Except.ok () ↔
      (isType lt.cls = true ∧
        isStrictSubclassOf lt.cls (portBaseFor pc) = true) := by
  unfold checkPortType
  split
  · rename_i hnt
    constructor
    · intro hok
      exact absurd hok (by simp)
    · intro hc
      rw [hc.1] at hnt
      exact absurd hnt (by simp)
  · rename_i hnt
    split
    · rename_i hsub
      constructor
      · intro _
        exact ⟨Bool.of_not_eq_false hnt, hsub⟩
      · intro _
        rfl
    · rename_i hsub
      constructor
      · intro hok
        exact absurd hok (by simp)
      · intro hc
        exact absurd hc.2 hsub

/-- `Runtime.init` succeeds exactly when the Executable holds one
NodeConfig holding one Node. -/
theorem rt_ok_iff (r : Runtime) :
    (∃ u, Runtime.init r = Except.ok u) ↔
      (∃ nc, r.exe.node_configs = [nc] ∧ ∃ nd, nc.nodes = [nd]) := by
  obtain ⟨⟨cfgs⟩, steps, st⟩ := r
  rcases cfgs with _ | ⟨nc, _ | ⟨nc2, rest⟩⟩
  · simp [Runtime.init]
  · obtain ⟨nds⟩ := nc
    rcases nds with _ | ⟨nd, _ | ⟨nd2, rest2⟩⟩ <;> simp [Runtime.init]
  · simp [Runtime.init]

/-- On success `Runtime.init` moves the Runtime to the `Initialized`
state. -/
theorem rt_ok_state (r u : Runtime) (h : Runtime.init r = Except.ok u) :
    u.state = RtState.inited := by
  obtain ⟨⟨cfgs⟩, steps, st⟩ := r
  rcases cfgs with _ | ⟨nc, _ | ⟨nc2, rest⟩⟩
  · exact absurd h (by simp [Runtime.init])
  · obtain ⟨nds⟩ := nc
    rcases nds with _ | ⟨nd, _ | ⟨nd2, rest2⟩⟩
    · exact absurd h (by simp [Runtime.init])
    · simp [Runtime.init] at h
      rw [← h]
    · exact absurd h (by simp [Runtime.init])
  · exact absurd h (by simp [Runtime.init])

/-! ## build() lemmas -/

/-- Well-formedness of the stored var keys: distinct names, distinct
companion names, and no name clashing with a companion name.  Holds for
every var mapping the compiler actually produces. -/
def var_keys_ok (vs : List (String × VarInitializer)) : Prop :=
  (vs.map Prod.fst).Nodup ∧
  ((vs.map Prod.fst).map precName).Nodup ∧
  ∀ n ∈ vs.map Prod.fst, ∀ m ∈ vs.map Prod.fst, n ≠ precName m

instance (vs : List (String × VarInitializer)) :
    Decidable (var_keys_ok vs) := by
  unfold var_keys_ok
  infer_instance

theorem var_keys_ok_tail (p : String × VarInitializer)
    (rest : List (String × VarInitializer)) (h : var_keys_ok (p :: rest)) :
    var_keys_ok rest := by
  obtain ⟨h1, h2, h3⟩ := h
  simp only [List.map_cons, List.nodup_cons] at h1 h2
  refine ⟨h1.2, h2.2, ?_⟩
  intro n hn m hm
  exact h3 n (List.mem_cons_of_mem _ hn) m (List.mem_cons_of_mem _ hm)

/-- What `build()` puts on the instance for every stored Var: the broadcast
initial value (array-typed Vars), the raw initial value (scalar-typed
Vars), and the companion precision attribute. -/
theorem build_var_attrs_lookup (pm : List (String × LavaPyType)) :
    ∀ (vs : List (String × VarInitializer)) (attrs : List (String × AttrVal)),
      build_var_attrs pm vs = Except.ok attrs →
      var_keys_ok vs →
      ∀ name v, (name, v) ∈ vs →
      ∀ lt, pm.lookup name = Option.some lt →
        (lt.cls = PyTypeTag.pyNdarray →
          ∃ w, Tensor.broadcastTo v.init v.shape = Option.some w ∧
            attrs.lookup name = Option.some (AttrVal.val w)) ∧
        (¬ lt.cls = PyTypeTag.pyNdarray →
          attrs.lookup name = Option.some (AttrVal.val v.init)) ∧
        attrs.lookup (precName name) =
          Option.some (AttrVal.prec lt.precision) := by
  intro vs
  induction vs with
  | nil =>
    intro attrs h hk name v hmem
    simp at hmem
  | cons p rest ih =>
    obtain ⟨k, v0⟩ := p
    intro attrs h hk name v hmem lt hlt
    have hkKeys : k ∈ ((k, v0) :: rest).map Prod.fst := by simp
    have hkTail : var_keys_ok rest := var_keys_ok_tail _ _ hk
    obtain ⟨hk1, hk2, hk3⟩ := hk
    simp only [List.map_cons, List.nodup_cons] at hk1 hk2
    simp only [build_var_attrs] at h
    split at h
    · exact absurd h (by simp)
    · rename_i lt0 hpm
      split at h
      · exact absurd h (by simp)
      · rename_i attrs2 hrest
        rcases List.mem_cons.mp hmem with heq | hmem2
        · -- the head var itself
          rw [Prod.mk.injEq] at heq
          obtain ⟨rfl, rfl⟩ := heq
          rw [hpm] at hlt
          injection hlt with hlt
          subst hlt
          have hne : name ≠ precName name :=
            hk3 name hkKeys name hkKeys
          split at h
          · rename_i hcls
            split at h
            · exact absurd h (by simp)
            · rename_i w hbc
              injection h with h
              subst h
              refine ⟨fun _ => ⟨w, hbc, lookup_cons_self _ _ _⟩,
                fun hnc => absurd hcls hnc, ?_⟩
              rw [lookup_cons_ne _ _ _ _ hne]
              exact lookup_cons_self _ _ _
          · rename_i hcls
            injection h with h
            subst h
            refine ⟨fun hc => absurd hc hcls,
              fun _ => lookup_cons_self _ _ _, ?_⟩
            rw [lookup_cons_ne _ _ _ _ hne]
            exact lookup_cons_self _ _ _
        · -- a var further down: the two head attributes are skipped
          have hnameTail : name ∈ rest.map Prod.fst :=
            List.mem_map_of_mem Prod.fst hmem2
          have hnameKeys : name ∈ ((k, v0) :: rest).map Prod.fst := by
            simp [hnameTail]
          have hkne : k ≠ name := by
            intro he
            rw [he] at hk1
            exact hk1.1 hnameTail
          have hpne : precName k ≠ name :=
            fun he => (hk3 name hnameKeys k hkKeys) he.symm
          have hkne2 : k ≠ precName name :=
            hk3 k hkKeys name hnameKeys
          have hpne2 : precName k ≠ precName name := by
            intro he
            rw [he] at hk2
            exact hk2.1 (List.mem_map_of_mem precName hnameTail)
          have hres := ih attrs2 hrest hkTail name v hmem2 lt hlt
          split at h
          · split at h
            · exact absurd h (by simp)
            · rename_i w hbc
              injection h with h
              subst h
              refine ⟨?_, ?_, ?_⟩
              · intro hc
                obtain ⟨w2, hw2, hl2⟩ := hres.1 hc
                refine ⟨w2, hw2, ?_⟩
                rw [lookup_cons_ne _ _ _ _ hkne,
                  lookup_cons_ne _ _ _ _ hpne]
                exact hl2
              · intro hc
                rw [lookup_cons_ne _ _ _ _ hkne,
                  lookup_cons_ne _ _ _ _ hpne]
                exact hres.2.1 hc
              · rw [lookup_cons_ne _ _ _ _ hkne2,
                  lookup_cons_ne _ _ _ _ hpne2]
                exact hres.2.2
          · injection h with h
            subst h
            refine ⟨?_, ?_, ?_⟩
            · intro hc
              obtain ⟨w2, hw2, hl2⟩ := hres.1 hc
              refine ⟨w2, hw2, ?_⟩
              rw [lookup_cons_ne _ _ _ _ hkne,
                lookup_cons_ne _ _ _ _ hpne]
              exact hl2
            · intro hc
              rw [lookup_cons_ne _ _ _ _ hkne,
                lookup_cons_ne _ _ _ _ hpne]
              exact hres.2.1 hc
            · rw [lookup_cons_ne _ _ _ _ hkne2,
                lookup_cons_ne _ _ _ _ hpne2]
              exact hres.2.2

/-- What `build()` puts on the instance for every stored Port: a live port
of the TypeDescriptor's class with the declared shape, bound to the stored
endpoint of the same name — `none` when no endpoint was stored. -/
theorem build_port_attrs_lookup (pm : List (String × LavaPyType))
    (csp : List (String × CspPort)) :
    ∀ (ports : List (String × PortInitializer))
      (attrs : List (String × AttrVal)),
      build_port_attrs pm csp ports = Except.ok attrs →
      (ports.map Prod.fst).Nodup →
      ∀ name pi, (name, pi) ∈ ports →
      ∀ lt, pm.lookup name = Option.some lt →
        attrs.lookup name =
          Option.some (AttrVal.port lt.cls pi.shape (csp.lookup name)) := by
  intro ports
  induction ports with
  | nil =>
    intro attrs h hnd name pi hmem
    simp at hmem
  | cons p rest ih =>
    obtain ⟨k, p0⟩ := p
    intro attrs h hnd name pi hmem lt hlt
    simp only [List.map_cons, List.nodup_cons] at hnd
    simp only [build_port_attrs] at h
    split at h
    · exact absurd h (by simp)
    · rename_i lt0 hpm
      split at h
      · exact absurd h (by simp)
      · rename_i attrs2 hrest
        injection h with h
        subst h
        rcases List.mem_cons.mp hmem with heq | hmem2
        · rw [Prod.mk.injEq] at heq
          obtain ⟨rfl, rfl⟩ := heq
          rw [hpm] at hlt
          injection hlt with hlt
          subst hlt
          exact lookup_cons_self _ _ _
        · have hnameTail : name ∈ rest.map Prod.fst :=
            List.mem_map_of_mem Prod.fst hmem2
          have hkne : k ≠ name := by
            intro he
            rw [he] at hnd
            exact hnd.1 hnameTail
          rw [lookup_cons_ne _ _ _ _ hkne]
          exact ih attrs2 hrest hnd.2 name pi hmem2 lt hlt

/-- `build()` never fails on the port side: missing endpoints are dangling
ports, not errors. -/
theorem build_port_attrs_total (pm : List (String × LavaPyType))
    (csp : List (String × CspPort)) :
    ∀ ports : List (String × PortInitializer),
      (∀ p ∈ ports, (pm.lookup p.1).isSome = true) →
      ∃ attrs, build_port_attrs pm csp ports = Except.ok attrs := by
  intro ports
  induction ports with
  | nil =>
    intro _
    exact ⟨[], rfl⟩
  | cons p rest ih =>
    obtain ⟨k, p0⟩ := p
    intro hall
    have hk := hall (k, p0) (List.mem_cons_self _ _)
    obtain ⟨lt, hlt⟩ := Option.isSome_iff_exists.mp hk
    obtain ⟨attrs2, hrest⟩ :=
      ih (fun q hq => hall q (List.mem_cons_of_mem _ hq))
    refine ⟨(k, AttrVal.port lt.cls p0.shape (csp.lookup k)) :: attrs2, ?_⟩
    simp only [build_port_attrs]
    rw [hlt, hrest]

/-! ## Algebra of the Sum reduce operation -/

theorem zipAdd_comm (a b : List Int) : zipAdd a b = zipAdd b a := by
  unfold zipAdd
  exact List.zipWith_comm_of_comm _ (fun x y => Int.add_comm x y) a b

theorem zipAdd_assoc (a b c : List Int) :
    zipAdd (zipAdd a b) c = zipAdd a (zipAdd b c) := by
  induction a generalizing b c with
  | nil => simp [zipAdd]
  | cons x ta ih =>
    cases b with
    | nil => simp [zipAdd]
    | cons y tb =>
      cases c with
      | nil => simp [zipAdd]
      | cons z tc =>
        simp only [zipAdd, List.zipWith_cons_cons, List.cons.injEq]
        refine ⟨Int.add_assoc x y z, ?_⟩
        simpa [zipAdd] using ih tb tc

theorem zipAdd_left_comm (x y a : List Int) :
    zipAdd x (zipAdd y a) = zipAdd y (zipAdd x a) := by
  rw [← zipAdd_assoc, zipAdd_comm x y, zipAdd_assoc]

/-- The per-step combination of delivered messages is invariant under the
arrival order. -/
theorem reduceSumMsgs_perm (l1 l2 : List (List Int)) (h : l1.Perm l2) :
    reduceSumMsgs l1 = reduceSumMsgs l2 := by
  unfold reduceSumMsgs
  induction h with
  | nil => rfl
  | cons x _ ih => simp only [List.foldr_cons, ih]
  | swap x y l =>
    simp only [List.foldr_cons]
    cases List.foldr _ Option.none l with
    | none => simp [combineOf, zipAdd_comm]
    | some a => simp [combineOf, zipAdd_left_comm]
  | trans _ _ ih1 ih2 => rw [ih1, ih2]

/-! ## Expected built instances -/

/-- The Var attributes `build()` produces for the full builder. -/
def vaFull : List (String × AttrVal) :=
  [("v1_scalar", AttrVal.val (scalarT 0)),
   ("_v1_scalar_p", AttrVal.prec (Option.some 27)),
   ("v2_scalar_init", AttrVal.val (scalarT 2)),
   ("_v2_scalar_init_p", AttrVal.prec (Option.some 27)),
   ("v3_tensor_broadcast",
     AttrVal.val (Tensor.mk [2, 3] (List.replicate 6 10))),
   ("_v3_tensor_broadcast_p", AttrVal.prec (Option.some 6)),
   ("v4_tensor", AttrVal.val (Tensor.mk [3, 2] [1, 2, 3, 4, 5, 6])),
   ("_v4_tensor_p", AttrVal.prec (Option.some 6))]

/-- The port attributes for the fully wired builder. -/
def paFull : List (String × AttrVal) :=
  [("in_port",
     AttrVal.port PyTypeTag.pyInPortVectorDense [2, 1] (Option.some cspIn)),
   ("out_port",
     AttrVal.port PyTypeTag.pyOutPortVectorDense [3, 2]
       (Option.some cspOut))]

/-- The built instance of `test_build`. -/
def instFull : List (String × AttrVal) := vaFull ++ paFull

/-- The built instance with no output endpoint: the out port dangles. -/
def instNoOut : List (String × AttrVal) :=
  vaFull ++
    [("in_port",
       AttrVal.port PyTypeTag.pyInPortVectorDense [2, 1]
         (Option.some cspIn)),
     ("out_port",
       AttrVal.port PyTypeTag.pyOutPortVectorDense [3, 2] Option.none)]

/-- The built instance with no input endpoint: the in port dangles. -/
def instNoIn : List (String × AttrVal) :=
  vaFull ++
    [("in_port",
       AttrVal.port PyTypeTag.pyInPortVectorDense [2, 1] Option.none),
     ("out_port",
       AttrVal.port PyTypeTag.pyOutPortVectorDense [3, 2]
         (Option.some cspOut))]

/-! ## The claims -/

/-- Claim C1: `Runtime.initialize()` succeeds if and only if the Executable
holds exactly one NodeConfig holding exactly one Node; it fails
(`InvalidDeploymentPlan`, an assertion failure) on an empty Executable,
succeeds on one NodeConfig with one Node, and fails again after a second
Node is appended to that NodeConfig or a second NodeConfig is appended to
the Executable — post-validation mutations are rejected on the next call. -/
theorem spec_c1 :
    (∀ r : Runtime,
      (∃ u, Runtime.init r = Except.ok u) ↔
        (∃ nc, r.exe.node_configs = [nc] ∧ ∃ nd, nc.nodes = [nd])) ∧
    Runtime.init rt1 =
      Except.error (assertFail ErrKind.invalidDeploymentPlan) ∧
    (∃ u, Runtime.init rt2 = Except.ok u ∧ u.state = RtState.inited) ∧
    Runtime.init rt3 =
      Except.error (assertFail ErrKind.invalidDeploymentPlan) ∧
    Runtime.init rt4 =
      Except.error (assertFail ErrKind.invalidDeploymentPlan) := by
  refine ⟨rt_ok_iff, by decide, ?_, by decide, by decide⟩
  exact ⟨Runtime.mk rt2.exe 10 RtState.inited, by decide, rfl⟩

/-- Claim C2 (counterexample): the type-compatibility check does NOT accept
a tag equal to the exact expected base type — `LavaPyType(PyInPort, int)`
for the declared InPort `port` is rejected with `TypeMismatch`, exactly as
the test `test_check_lava_py_types` expects. -/
theorem spec_c2_counter :
    check_lava_py_types bType2 =
      Except.error (assertFail ErrKind.typeMismatch) := by
  decide

/-- Claim C2 (amended): `check_lava_py_types` rejects a non-type primary
tag (`InvalidTypeDescriptor`), rejects a same-class-wrong-direction tag
(`TypeMismatch`), rejects a tag equal to the exact expected base port type
(`TypeMismatch`), and accepts exactly the strict subtypes of the expected
direction-specific base port type, e.g. `PyInPort.VEC_DENSE` for a
declared InPort. -/
theorem spec_c2 :
    (∀ (lt : LavaPyType) (pc : PortCls),
      checkPortType lt pc = Except.ok () ↔
        (isType lt.cls = true ∧
          isStrictSubclassOf lt.cls (portBaseFor pc) = true)) ∧
    check_lava_py_types bType0 = Except.ok () ∧
    check_lava_py_types bType1 =
      Except.error (assertFail ErrKind.invalidTypeDescriptor) ∧
    check_lava_py_types bType2 =
      Except.error (assertFail ErrKind.typeMismatch) ∧
    check_lava_py_types bType3 =
      Except.error (assertFail ErrKind.typeMismatch) := by
  exact ⟨checkPortType_ok_iff, by decide, by decide, by decide, by decide⟩

/-- Claim C3: for every stored array-typed VarInitializer whose init value
broadcasts to the declared shape, `build()` sets the live attribute to the
init value broadcast to exactly the declared shape; in the end-to-end
example the ports get their declared shapes, the uninitialized scalar Var
equals 0, the initialized scalar Var equals 2, and the (2,3) Var equals a
matrix filled with 10. -/
theorem spec_c3 :
    (∀ (pm : List (String × LavaPyType))
       (vs : List (String × VarInitializer))
       (attrs : List (String × AttrVal)),
      build_var_attrs pm vs = Except.ok attrs →
      var_keys_ok vs →
      ∀ name v, (name, v) ∈ vs →
      ∀ lt, pm.lookup name = Option.some lt →
        lt.cls = PyTypeTag.pyNdarray →
        ∃ w, Tensor.broadcastTo v.init v.shape = Option.some w ∧
          attrs.lookup name = Option.some (AttrVal.val w) ∧
          w.shape = v.shape) ∧
    PyProcessBuilder.build bFull = Except.ok instFull ∧
    instFull.lookup "in_port" =
      Option.some
        (AttrVal.port PyTypeTag.pyInPortVectorDense [2, 1]
          (Option.some cspIn)) ∧
    instFull.lookup "out_port" =
      Option.some
        (AttrVal.port PyTypeTag.pyOutPortVectorDense [3, 2]
          (Option.some cspOut)) ∧
    instFull.lookup "v1_scalar" = Option.some (AttrVal.val (scalarT 0)) ∧
    instFull.lookup "v2_scalar_init" =
      Option.some (AttrVal.val (scalarT 2)) ∧
    instFull.lookup "v3_tensor_broadcast" =
      Option.some
        (AttrVal.val (Tensor.mk [2, 3] (List.replicate 6 10))) ∧
    instFull.lookup "v4_tensor" =
      Option.some (AttrVal.val (Tensor.mk [3, 2] [1, 2, 3, 4, 5, 6])) := by
  refine ⟨?_, by decide, by decide, by decide, by decide, by decide,
    by decide, by decide⟩
  intro pm vs attrs h hk name v hmem lt hlt hcls
  obtain ⟨w, hw, hlw⟩ :=
    (build_var_attrs_lookup pm vs attrs h hk name v hmem lt hlt).1 hcls
  exact ⟨w, hw, hlw, (broadcastTo_shape v.init v.shape w hw).1⟩

/-- Claim C3 witness: the general part applied to the (2,3) Var of the
example builder. -/
theorem spec_c3_witness :
    build_var_attrs ProcModelTypes fullVars = Except.ok vaFull ∧
    ∃ w, Tensor.broadcastTo vi3.init vi3.shape = Option.some w ∧
      vaFull.lookup "v3_tensor_broadcast" =
        Option.some (AttrVal.val w) ∧
      w.shape = vi3.shape :=
  ⟨by decide,
    spec_c3.1 ProcModelTypes fullVars vaFull (by decide) (by decide)
      "v3_tensor_broadcast" vi3 (by decide)
      (LavaPyType.mk PyTypeTag.pyNdarray PyTypeTag.pyInt (Option.some 6))
      (by decide) (by decide)⟩

/-- Claim C4: for stored initializers (whose names necessarily all exist on
the process-model type), `check_all_vars_and_ports_set()` passes iff the
stored name-set equals the declared name-set; with the last Var and Port
missing it fails `IncompleteBinding` (an assertion failure), and once they
are supplied the same builder's check passes. -/
theorem spec_c4 :
    (∀ b : PyProcessBuilder,
      subsetB (storedNames b) (declaredNames b) = true →
      (check_all_vars_and_ports_set b = Except.ok () ↔
        sameSetB (storedNames b) (declaredNames b) = true)) ∧
    check_all_vars_and_ports_set bMissing =
      Except.error (assertFail ErrKind.incompleteBinding) ∧
    check_all_vars_and_ports_set bFull = Except.ok () := by
  refine ⟨?_, by decide, by decide⟩
  intro b hsub
  rw [check_all_ok_iff]
  unfold sameSetB
  constructor
  · intro hall
    rw [Bool.and_eq_true]
    exact ⟨hsub, (subsetB_iff _ _).mpr hall⟩
  · intro hsame
    rw [Bool.and_eq_true] at hsame
    exact (subsetB_iff _ _).mp hsame.2

/-- Claim C4 witness: the iff applied to the fully populated builder. -/
theorem spec_c4_witness :
    subsetB (storedNames bFull) (declaredNames bFull) = true ∧
    check_all_vars_and_ports_set bFull = Except.ok () :=
  ⟨by decide, (spec_c4.1 bFull (by decide)).mpr (by decide)⟩

/-- Claim C5: `set_variables` (and likewise `set_py_ports`) fails with
`UnknownAttribute` (an assertion failure) whenever any initializer in the
list has a name with no `LavaPyType` on the process-model type; one unknown
name poisons the whole list even if every other entry is valid. -/
theorem spec_c5 :
    (∀ (b : PyProcessBuilder) (l : List VarInitializer),
      (∃ b2, set_variables b l = Except.ok b2) ↔
        ∀ v ∈ l, (b.proc_model.lookup v.name).isSome = true) ∧
    (∀ (b : PyProcessBuilder) (l : List VarInitializer),
      (∃ v, v ∈ l ∧ b.proc_model.lookup v.name = Option.none) →
      set_variables b l =
        Except.error (assertFail ErrKind.unknownAttribute)) ∧
    (∀ (b : PyProcessBuilder) (l : List PortInitializer),
      (∃ b2, set_py_ports b l = Except.ok b2) ↔
        ∀ p ∈ l, (b.proc_model.lookup p.name).isSome = true) ∧
    (∀ (b : PyProcessBuilder) (l : List PortInitializer),
      (∃ p, p ∈ l ∧ b.proc_model.lookup p.name = Option.none) →
      set_py_ports b l =
        Except.error (assertFail ErrKind.unknownAttribute)) ∧
    set_variables bEmptyB (procVarInits ++ [anotherVarInit]) =
      Except.error (assertFail ErrKind.unknownAttribute) :=
  ⟨set_variables_ok_iff, set_variables_err, set_py_ports_ok_iff,
    set_py_ports_err, by decide⟩

/-- Claim C5 witness: a single unknown-name initializer is rejected. -/
theorem spec_c5_witness :
    set_variables bEmptyB [anotherVarInit] =
      Except.error (assertFail ErrKind.unknownAttribute) :=
  spec_c5.2.1 bEmptyB [anotherVarInit]
    ⟨anotherVarInit, by decide, by decide⟩

/-- Claim C6: for every stored Var, `build()` creates the companion
precision attribute `_<var_name>_p` holding the TypeDescriptor's default
precision, independent of the Var's init value; in the example the four
values are 27, 27, 6, 6. -/
theorem spec_c6 :
    (∀ (pm : List (String × LavaPyType))
       (vs : List (String × VarInitializer))
       (attrs : List (String × AttrVal)),
      build_var_attrs pm vs = Except.ok attrs →
      var_keys_ok vs →
      ∀ name v, (name, v) ∈ vs →
      ∀ lt, pm.lookup name = Option.some lt →
        attrs.lookup (precName name) =
          Option.some (AttrVal.prec lt.precision)) ∧
    PyProcessBuilder.build bFull = Except.ok instFull ∧
    instFull.lookup "_v1_scalar_p" =
      Option.some (AttrVal.prec (Option.some 27)) ∧
    instFull.lookup "_v2_scalar_init_p" =
      Option.some (AttrVal.prec (Option.some 27)) ∧
    instFull.lookup "_v3_tensor_broadcast_p" =
      Option.some (AttrVal.prec (Option.some 6)) ∧
    instFull.lookup "_v4_tensor_p" =
      Option.some (AttrVal.prec (Option.some 6)) := by
  refine ⟨?_, by decide, by decide, by decide, by decide, by decide⟩
  intro pm vs attrs h hk name v hmem lt hlt
  exact (build_var_attrs_lookup pm vs attrs h hk name v hmem lt hlt).2.2

/-- Claim C6 witness: the general part applied to the first scalar Var of
the example builder. -/
theorem spec_c6_witness :
    vaFull.lookup (precName "v1_scalar") =
      Option.some (AttrVal.prec (Option.some 27)) :=
  spec_c6.1 ProcModelTypes fullVars vaFull (by decide) (by decide)
    "v1_scalar" vi1 (by decide)
    (LavaPyType.mk PyTypeTag.pyInt PyTypeTag.pyInt (Option.some 27))
    (by decide)

/-- Claim C7: building with endpoints only for the input ports leaves every
output port's endpoint reference unset, and vice versa; a port with zero
bound endpoints is legal and never a build error. -/
theorem spec_c7 :
    (∀ (pm : List (String × LavaPyType)) (csp : List (String × CspPort))
       (ports : List (String × PortInitializer))
       (attrs : List (String × AttrVal)),
      build_port_attrs pm csp ports = Except.ok attrs →
      (ports.map Prod.fst).Nodup →
      ∀ name pi, (name, pi) ∈ ports →
      ∀ lt, pm.lookup name = Option.some lt →
        attrs.lookup name =
          Option.some (AttrVal.port lt.cls pi.shape (csp.lookup name))) ∧
    (∀ (pm : List (String × LavaPyType)) (csp : List (String × CspPort))
       (ports : List (String × PortInitializer)),
      (∀ p ∈ ports, (pm.lookup p.1).isSome = true) →
      ∃ attrs, build_port_attrs pm csp ports = Except.ok attrs) ∧
    PyProcessBuilder.build bNoOut = Except.ok instNoOut ∧
    instNoOut.lookup "out_port" =
      Option.some
        (AttrVal.port PyTypeTag.pyOutPortVectorDense [3, 2] Option.none) ∧
    instNoOut.lookup "in_port" =
      Option.some
        (AttrVal.port PyTypeTag.pyInPortVectorDense [2, 1]
          (Option.some cspIn)) ∧
    PyProcessBuilder.build bNoIn = Except.ok instNoIn ∧
    instNoIn.lookup "in_port" =
      Option.some
        (AttrVal.port PyTypeTag.pyInPortVectorDense [2, 1] Option.none) ∧
    instNoIn.lookup "out_port" =
      Option.some
        (AttrVal.port PyTypeTag.pyOutPortVectorDense [3, 2]
          (Option.some cspOut)) :=
  ⟨build_port_attrs_lookup, build_port_attrs_total, by decide, by decide,
    by decide, by decide, by decide, by decide⟩

/-- Claim C7 witness: the binding rule applied to the dangling out port of
the builder wired only on the input side. -/
theorem spec_c7_witness :
    ([("in_port",
        AttrVal.port PyTypeTag.pyInPortVectorDense [2, 1]
          (Option.some cspIn)),
      ("out_port",
        AttrVal.port PyTypeTag.pyOutPortVectorDense [3, 2]
          Option.none)].lookup "out_port") =
      Option.some
        (AttrVal.port PyTypeTag.pyOutPortVectorDense [3, 2] Option.none) :=
  spec_c7.1 ProcModelTypes [("in_port", cspIn)] fullPorts _ (by decide)
    (by decide) "out_port" piOut (by decide)
    (LavaPyType.mk PyTypeTag.pyOutPortVectorDense PyTypeTag.pyInt
      (Option.some 8))
    (by decide)

/-- Claim C8: the Sum ReduceOp combines delivered messages by element-wise
addition, the combination operator is commutative and associative, and the
per-step combination is invariant under the arrival interleaving. -/
theorem spec_c8 :
    (∀ a b : List Int,
      combineOf ReduceOp.sum a b = combineOf ReduceOp.sum b a) ∧
    (∀ a b c : List Int,
      combineOf ReduceOp.sum (combineOf ReduceOp.sum a b) c =
        combineOf ReduceOp.sum a (combineOf ReduceOp.sum b c)) ∧
    (∀ l1 l2 : List (List Int),
      l1.Perm l2 → reduceSumMsgs l1 = reduceSumMsgs l2) :=
  ⟨zipAdd_comm, zipAdd_assoc, reduceSumMsgs_perm⟩

/-- Claim C8 witness: order-independence at a concrete pair of delivered
message multisets. -/
theorem spec_c8_witness :
    ([[1, 2], [3, 4], [5, 6]] : List (List Int)).Perm
        [[5, 6], [1, 2], [3, 4]] ∧
    reduceSumMsgs [[1, 2], [3, 4], [5, 6]] =
      reduceSumMsgs [[5, 6], [1, 2], [3, 4]] :=
  ⟨by decide, spec_c8.2.2 [[1, 2], [3, 4], [5, 6]]
    [[5, 6], [1, 2], [3, 4]] (by decide)⟩

/-- Claim C9: every configuration error of the taxonomy — `UnknownAttribute`
from `set_variables`, `IncompleteBinding` from
`check_all_vars_and_ports_set`, `InvalidTypeDescriptor` and `TypeMismatch`
from `check_lava_py_types`, `InvalidDeploymentPlan` from
`Runtime.initialize` — reaches the caller as a plain `AssertionError`, so
the five kinds are not distinguishable by exception class. -/
theorem spec_c9 :
    set_variables bEmptyB (procVarInits ++ [anotherVarInit]) =
      Except.error
        (ConfigError.mk ErrKind.unknownAttribute
          ExcClass.assertionError) ∧
    check_all_vars_and_ports_set bMissing =
      Except.error
        (ConfigError.mk ErrKind.incompleteBinding
          ExcClass.assertionError) ∧
    check_lava_py_types bType1 =
      Except.error
        (ConfigError.mk ErrKind.invalidTypeDescriptor
          ExcClass.assertionError) ∧
    check_lava_py_types bType3 =
      Except.error
        (ConfigError.mk ErrKind.typeMismatch ExcClass.assertionError) ∧
    Runtime.init rt1 =
      Except.error
        (ConfigError.mk ErrKind.invalidDeploymentPlan
          ExcClass.assertionError) := by
  exact ⟨by decide, by decide, by decide, by decide, by decide⟩

/-- Claim C10: a NodeConfig whose single Node carries an empty list of
process models passes validation: `Runtime.initialize()` accepts it and
transitions the Runtime to `Initialized` — no requirement that at least one
process be deployed. -/
theorem spec_c10 :
    (∀ (tag : String) (steps : Nat),
      Runtime.init
          (Runtime.mk (Executable.mk [NodeConfig.mk [Node.mk tag []]])
            steps RtState.created) =
        Except.ok
          (Runtime.mk (Executable.mk [NodeConfig.mk [Node.mk tag []]])
            steps RtState.inited)) ∧
    headNode.processes = [] ∧
    Runtime.init rt2 =
      Except.ok (Runtime.mk rt2.exe 10 RtState.inited) :=
  ⟨fun _ _ => rfl, rfl, by decide⟩

end Lava
